import Mathlib

/-!
Verification of `scripts/https-server.py` (certificate provisioner).

The script is embedded shallowly: filesystem state is a pair of lists of
paths (directories and files), the environment supplies the outcomes of
the operations the script delegates to the OS (directory creation
permission, resolvability of the `openssl` executable, the exit code of
the `openssl` invocation, and the files a failing invocation leaves
behind), and a run produces a result, a final filesystem state, and a
trace of observable effects (the `mkdir` call, console messages, the
external tool invocation with its full argument list).
-/

namespace SpeechOS

/-- A filesystem path, as a list of components relative to the repository
root (the script resolves its paths relative to its own directory,
`scripts/`). -/
abbrev FPath := List String

/-- `CERT_DIR = Path(__file__).parent / ".certs"`. -/
def CERT_DIR : FPath := ["scripts", ".certs"]

/-- `CERT_FILE = CERT_DIR / "cert.pem"`. -/
def CERT_FILE : FPath := CERT_DIR ++ ["cert.pem"]

/-- `KEY_FILE = CERT_DIR / "key.pem"`. -/
def KEY_FILE : FPath := CERT_DIR ++ ["key.pem"]

/-- Rendering of a path as the string passed on the command line
(`str(KEY_FILE)` / `str(CERT_FILE)`). -/
def pathStr (p : FPath) : String := String.intercalate "/" p

/-- The parent directory of a path. -/
def parentOf (p : FPath) : FPath := p.dropLast

/-- All initial segments of a path (the chain of directories
`mkdir(parents=True)` ensures): for `a/b` this is `[a, a/b]`. -/
def ancestorChain (p : FPath) : List FPath :=
  (List.range p.length).map (fun i => p.take (i + 1))

/-- Filesystem state: the set of existing directories and the set of
existing regular files, each as a list of paths. -/
structure FS where
  dirs : List FPath
  files : List FPath
deriving DecidableEq, Repr

/-- Add to `xs` the elements of `extra` not already present (used both for
directory creation and for file writes: writing an existing path
overwrites it, leaving membership unchanged). -/
def addMissing (xs extra : List FPath) : List FPath :=
  extra.foldl (fun acc d => if d ∈ acc then acc else acc ++ [d]) xs

/-- `p.mkdir(parents=True, exist_ok=True)`: create the directory and every
missing ancestor. -/
def FS.mkdirP (fs : FS) (p : FPath) : FS :=
  { fs with dirs := addMissing fs.dirs (ancestorChain p) }

/-- A well-formed filesystem: every file is a nonempty path whose parent
directory exists, and the parent of every non-root directory exists. -/
def FS.wf (fs : FS) : Prop :=
  (∀ f ∈ fs.files, f ≠ [] ∧ parentOf f ∈ fs.dirs) ∧
  (∀ d ∈ fs.dirs, parentOf d = [] ∨ parentOf d ∈ fs.dirs)

instance (fs : FS) : Decidable fs.wf := by
  unfold FS.wf; infer_instance

/-- The environment: outcomes of the operations the script delegates to
the operating system. `mkdirOk` is whether the OS permits creating the
certificate directory (with `exist_ok=True`, creation of an already
existing directory succeeds regardless); `opensslOnPath` is whether the
`openssl` executable resolves on the execution path; `opensslExit` is the
exit code the tool would return; `toolLeftoverFiles` are the files a
failing invocation leaves behind (a successful invocation writes exactly
its two output paths). -/
structure Env where
  mkdirOk : Bool
  opensslOnPath : Bool
  opensslExit : Nat
  toolLeftoverFiles : List FPath
deriving DecidableEq, Repr

/-- The ways the script can fail: `mkdir` raising `OSError`,
`subprocess.run` raising `FileNotFoundError` (executable not resolvable),
and `subprocess.run(check=True)` raising `CalledProcessError` carrying
the tool's exit code. -/
inductive ProvisionError where
  | directoryCreationFailed : ProvisionError
  | externalToolNotFound : ProvisionError
  | certificateGenerationFailed : Nat → ProvisionError
deriving DecidableEq, Repr

/-- Success, or an uncaught exception. -/
inductive ProvisionResult where
  | success : ProvisionResult
  | failure : ProvisionError → ProvisionResult
deriving DecidableEq, Repr

/-- Observable effects of a run, in order: the `mkdir` call, the console
messages, and the execution of the external tool with its argument
list. -/
inductive Effect where
  | mkdirCall : FPath → Effect
  | msgAlreadyExist : FPath → Effect
  | msgGenerating : Effect
  | runTool : List String → Effect
  | msgCertGenerated : FPath → Effect
  | msgKeyGenerated : FPath → Effect
deriving DecidableEq, Repr

/-- The `-addext` value of the `openssl` invocation. -/
def sanExtension : String :=
  "subjectAltName=DNS:localhost,DNS:speechos,DNS:*.local,IP:127.0.0.1"

/-- The argument list of the `subprocess.run` call, verbatim from the
source. -/
def opensslArgs : List String :=
  ["openssl", "req", "-x509",
   "-newkey", "rsa:4096",
   "-keyout", pathStr KEY_FILE,
   "-out", pathStr CERT_FILE,
   "-days", "365",
   "-nodes",
   "-subj", "/CN=localhost",
   "-addext", sanExtension]

/-- Outcome of one run: the result, the final filesystem state, and the
effect trace. -/
structure RunOutcome where
  result : ProvisionResult
  fs : FS
  trace : List Effect
deriving DecidableEq, Repr

/-- Embedding of `generate_self_signed_cert()`:

1. `CERT_DIR.mkdir(parents=True, exist_ok=True)` — fails only when the OS
   denies creation and the directory does not already exist;
2. if `CERT_FILE.exists() and KEY_FILE.exists()`, print the
   already-exist message and return;
3. print the generating message and call
   `subprocess.run([...], check=True)`: `FileNotFoundError` when the
   executable is not on the path; `CalledProcessError` on a nonzero exit
   code, with whatever the tool wrote left in place; on exit code 0 the
   tool has written its two output files, and the two confirmation
   messages are printed. -/
def generate_self_signed_cert (env : Env) (fs : FS) : RunOutcome :=
  if env.mkdirOk = false ∧ CERT_DIR ∉ fs.dirs then
    { result := .failure .directoryCreationFailed, fs := fs,
      trace := [.mkdirCall CERT_DIR] }
  else if CERT_FILE ∈ fs.files ∧ KEY_FILE ∈ fs.files then
    { result := .success, fs := fs.mkdirP CERT_DIR,
      trace := [.mkdirCall CERT_DIR, .msgAlreadyExist CERT_DIR] }
  else if env.opensslOnPath = false then
    { result := .failure .externalToolNotFound, fs := fs.mkdirP CERT_DIR,
      trace := [.mkdirCall CERT_DIR, .msgGenerating] }
  else if env.opensslExit ≠ 0 then
    { result := .failure (.certificateGenerationFailed env.opensslExit),
      fs := { dirs := (fs.mkdirP CERT_DIR).dirs,
              files := addMissing fs.files env.toolLeftoverFiles },
      trace := [.mkdirCall CERT_DIR, .msgGenerating, .runTool opensslArgs] }
  else
    { result := .success,
      fs := { dirs := (fs.mkdirP CERT_DIR).dirs,
              files := addMissing fs.files [KEY_FILE, CERT_FILE] },
      trace := [.mkdirCall CERT_DIR, .msgGenerating, .runTool opensslArgs,
                .msgCertGenerated CERT_FILE, .msgKeyGenerated KEY_FILE] }

/-- Exit status of the process when the file is run as a script: the
`__main__` guard calls `generate_self_signed_cert()` with no exception
handler and no `sys.exit`, so the interpreter exits 0 on normal return
and 1 (the CPython status for any uncaught exception) on failure. -/
def script_exit_code (env : Env) (fs : FS) : Nat :=
  match (generate_self_signed_cert env fs).result with
  | .success => 0
  | .failure _ => 1

/-- Number of external tool executions recorded in a trace. -/
def countRunTool (t : List Effect) : Nat :=
  t.countP (fun e => match e with | .runTool _ => true | _ => false)

/-- `a` is immediately followed by `b` somewhere in `l`. -/
def adjacentIn (a b : String) (l : List String) : Prop :=
  (a, b) ∈ l.zip l.tail

instance (a b : String) (l : List String) : Decidable (adjacentIn a b l) := by
  unfold adjacentIn; infer_instance

/-- The characters after the first `=`. -/
def dropThroughEq : List Char → List Char
  | [] => []
  | x :: xs => if x = '=' then xs else dropThroughEq xs

/-- Split a character list on a separator character. -/
def splitOnChar (c : Char) : List Char → List (List Char)
  | [] => [[]]
  | x :: xs =>
    let r := splitOnChar c xs
    if x = c then [] :: r
    else
      match r with
      | [] => [[x]]
      | y :: ys => (x :: y) :: ys

/-- The comma-separated entries of a `subjectAltName=...` extension
value. -/
def sanEntries (s : String) : List String :=
  (splitOnChar ',' (dropThroughEq s.data)).map (fun cs => String.mk cs)

/-! Concrete fixtures used by witnesses and counterexamples. -/

/-- Environment in which every delegated operation succeeds. -/
def envOk : Env := { mkdirOk := true, opensslOnPath := true, opensslExit := 0, toolLeftoverFiles := [] }

/-- Environment in which the tool exits with status 3. -/
def envFail3 : Env := { mkdirOk := true, opensslOnPath := true, opensslExit := 3, toolLeftoverFiles := [KEY_FILE] }

/-- Environment in which the `openssl` executable is not resolvable. -/
def envNoTool : Env := { mkdirOk := true, opensslOnPath := false, opensslExit := 0, toolLeftoverFiles := [] }

/-- Environment in which directory creation is denied. -/
def envNoMkdir : Env := { mkdirOk := false, opensslOnPath := true, opensslExit := 0, toolLeftoverFiles := [] }

/-- The empty (clean) filesystem. -/
def fs0 : FS := { dirs := [], files := [] }

/-- A filesystem in which both artifacts (and their directories) exist. -/
def fsReady : FS := { dirs := [["scripts"], ["scripts", ".certs"]], files := [CERT_FILE, KEY_FILE] }

/-- A filesystem in which only the key file exists. -/
def fsKeyOnly : FS := { dirs := [["scripts"], ["scripts", ".certs"]], files := [KEY_FILE] }

/-- A filesystem in which only the certificate file exists. -/
def fsCertOnly : FS := { dirs := [["scripts"], ["scripts", ".certs"]], files := [CERT_FILE] }

/-! Helper lemmas about `addMissing` and `mkdirP`. -/

lemma addMissing_eq_self : ∀ (extra xs : List FPath), (∀ d ∈ extra, d ∈ xs) →
    addMissing xs extra = xs := by
  intro extra
  induction extra with
  | nil => intro xs _; rfl
  | cons d ds ih =>
    intro xs h
    have hd : d ∈ xs := h d (List.mem_cons_self d ds)
    show List.foldl _ _ (d :: ds) = xs
    rw [List.foldl_cons, if_pos hd]
    exact ih xs (fun x hx => h x (List.mem_cons_of_mem d hx))

lemma mem_addMissing_left : ∀ (extra xs : List FPath) (a : FPath), a ∈ xs →
    a ∈ addMissing xs extra := by
  intro extra
  induction extra with
  | nil => intro xs a h; exact h
  | cons d ds ih =>
    intro xs a h
    show a ∈ List.foldl _ (if d ∈ xs then xs else xs ++ [d]) ds
    by_cases hd : d ∈ xs
    · rw [if_pos hd]; exact ih xs a h
    · rw [if_neg hd]; exact ih (xs ++ [d]) a (List.mem_append_left _ h)

lemma mem_addMissing_right : ∀ (extra xs : List FPath) (a : FPath), a ∈ extra →
    a ∈ addMissing xs extra := by
  intro extra
  induction extra with
  | nil => intro xs a h; cases h
  | cons d ds ih =>
    intro xs a h
    show a ∈ List.foldl _ (if d ∈ xs then xs else xs ++ [d]) ds
    rcases List.mem_cons.mp h with rfl | hds
    · by_cases hd : a ∈ xs
      · rw [if_pos hd]; exact mem_addMissing_left ds xs a hd
      · rw [if_neg hd]
        exact mem_addMissing_left ds (xs ++ [a]) a
          (List.mem_append_right _ (List.mem_singleton.mpr rfl))
    · by_cases hd : d ∈ xs
      · rw [if_pos hd]; exact ih xs a hds
      · rw [if_neg hd]; exact ih (xs ++ [d]) a hds

lemma mem_of_mem_addMissing : ∀ (extra xs : List FPath) (a : FPath),
    a ∈ addMissing xs extra → a ∈ xs ∨ a ∈ extra := by
  intro extra
  induction extra with
  | nil => intro xs a h; exact Or.inl h
  | cons d ds ih =>
    intro xs a h
    have h' : a ∈ List.foldl _ (if d ∈ xs then xs else xs ++ [d]) ds := h
    by_cases hd : d ∈ xs
    · rw [if_pos hd] at h'
      rcases ih xs a h' with hx | hds
      · exact Or.inl hx
      · exact Or.inr (List.mem_cons_of_mem d hds)
    · rw [if_neg hd] at h'
      rcases ih (xs ++ [d]) a h' with hx | hds
      · rcases List.mem_append.mp hx with hxs | hsing
        · exact Or.inl hxs
        · exact Or.inr (List.mem_cons.mpr (Or.inl (List.mem_singleton.mp hsing)))
      · exact Or.inr (List.mem_cons_of_mem d hds)

lemma mkdirP_files (fs : FS) (p : FPath) : (fs.mkdirP p).files = fs.files := rfl

lemma ancestorChain_CERT_DIR :
    ancestorChain CERT_DIR = [["scripts"], ["scripts", ".certs"]] := by decide

/-- From a well-formed state containing the certificate file, the whole
ancestor chain of the certificate directory exists. -/
lemma wf_dirs_of_cert (fs : FS) (hwf : fs.wf) (hc : CERT_FILE ∈ fs.files) :
    ["scripts"] ∈ fs.dirs ∧ CERT_DIR ∈ fs.dirs := by
  have h2 : CERT_DIR ∈ fs.dirs := (hwf.1 CERT_FILE hc).2
  refine ⟨?_, h2⟩
  rcases hwf.2 CERT_DIR h2 with h | h
  · exact absurd h (by decide)
  · exact h

/-- `mkdir` leaves a well-formed state containing the artifacts
untouched. -/
lemma mkdirP_eq_self (fs : FS) (h1 : ["scripts"] ∈ fs.dirs)
    (h2 : CERT_DIR ∈ fs.dirs) : fs.mkdirP CERT_DIR = fs := by
  unfold FS.mkdirP
  rw [ancestorChain_CERT_DIR, addMissing_eq_self]
  intro d hd
  rcases List.mem_cons.mp hd with rfl | hd
  · exact h1
  · rcases List.mem_cons.mp hd with rfl | hd
    · exact h2
    · cases hd

/-! Branch characterizations of `generate_self_signed_cert`. -/

lemma generate_dirfail (env : Env) (fs : FS)
    (h : env.mkdirOk = false ∧ CERT_DIR ∉ fs.dirs) :
    generate_self_signed_cert env fs =
      { result := .failure .directoryCreationFailed, fs := fs,
        trace := [.mkdirCall CERT_DIR] } := by
  unfold generate_self_signed_cert
  rw [if_pos h]

lemma generate_skip (env : Env) (fs : FS)
    (hdir : ¬(env.mkdirOk = false ∧ CERT_DIR ∉ fs.dirs))
    (hc : CERT_FILE ∈ fs.files) (hk : KEY_FILE ∈ fs.files) :
    generate_self_signed_cert env fs =
      { result := .success, fs := fs.mkdirP CERT_DIR,
        trace := [.mkdirCall CERT_DIR, .msgAlreadyExist CERT_DIR] } := by
  unfold generate_self_signed_cert
  rw [if_neg hdir, if_pos ⟨hc, hk⟩]

lemma generate_no_tool (env : Env) (fs : FS)
    (hdir : ¬(env.mkdirOk = false ∧ CERT_DIR ∉ fs.dirs))
    (hnb : ¬(CERT_FILE ∈ fs.files ∧ KEY_FILE ∈ fs.files))
    (hp : env.opensslOnPath = false) :
    generate_self_signed_cert env fs =
      { result := .failure .externalToolNotFound, fs := fs.mkdirP CERT_DIR,
        trace := [.mkdirCall CERT_DIR, .msgGenerating] } := by
  unfold generate_self_signed_cert
  rw [if_neg hdir, if_neg hnb, if_pos hp]

lemma generate_tool_fail (env : Env) (fs : FS)
    (hdir : ¬(env.mkdirOk = false ∧ CERT_DIR ∉ fs.dirs))
    (hnb : ¬(CERT_FILE ∈ fs.files ∧ KEY_FILE ∈ fs.files))
    (hp : env.opensslOnPath = true) (he : env.opensslExit ≠ 0) :
    generate_self_signed_cert env fs =
      { result := .failure (.certificateGenerationFailed env.opensslExit),
        fs := { dirs := (fs.mkdirP CERT_DIR).dirs,
                files := addMissing fs.files env.toolLeftoverFiles },
        trace := [.mkdirCall CERT_DIR, .msgGenerating, .runTool opensslArgs] } := by
  unfold generate_self_signed_cert
  rw [if_neg hdir, if_neg hnb, if_neg (by simp [hp]), if_pos he]

lemma generate_tool_ok (env : Env) (fs : FS)
    (hdir : ¬(env.mkdirOk = false ∧ CERT_DIR ∉ fs.dirs))
    (hnb : ¬(CERT_FILE ∈ fs.files ∧ KEY_FILE ∈ fs.files))
    (hp : env.opensslOnPath = true) (he : env.opensslExit = 0) :
    generate_self_signed_cert env fs =
      { result := .success,
        fs := { dirs := (fs.mkdirP CERT_DIR).dirs,
                files := addMissing fs.files [KEY_FILE, CERT_FILE] },
        trace := [.mkdirCall CERT_DIR, .msgGenerating, .runTool opensslArgs,
                  .msgCertGenerated CERT_FILE, .msgKeyGenerated KEY_FILE] } := by
  unfold generate_self_signed_cert
  rw [if_neg hdir, if_neg hnb, if_neg (by simp [hp]), if_neg (by simp [he])]

lemma mkdirOk_not_dirfail (env : Env) (fs : FS) (hm : env.mkdirOk = true) :
    ¬(env.mkdirOk = false ∧ CERT_DIR ∉ fs.dirs) := by
  intro h
  rw [hm] at h
  cases h.1

/-- C1: if both the certificate file and the key file exist on entry (in a
well-formed filesystem), the run succeeds, emits the already-exist
message, performs no filesystem write (the final state equals the initial
state), and never executes the external tool; consequently two successive
runs from a state in which generation is needed, with every delegated
operation succeeding and no external interference, execute the external
tool exactly once in total. -/
theorem c1_idempotence :
    (∀ (env : Env) (fs : FS), fs.wf → CERT_FILE ∈ fs.files →
      KEY_FILE ∈ fs.files →
      (generate_self_signed_cert env fs).result = .success ∧
      (generate_self_signed_cert env fs).fs = fs ∧
      Effect.msgAlreadyExist CERT_DIR ∈ (generate_self_signed_cert env fs).trace ∧
      ∀ args, Effect.runTool args ∉ (generate_self_signed_cert env fs).trace) ∧
    (∀ (env : Env) (fs : FS), env.mkdirOk = true → env.opensslOnPath = true →
      env.opensslExit = 0 → ¬(CERT_FILE ∈ fs.files ∧ KEY_FILE ∈ fs.files) →
      countRunTool (generate_self_signed_cert env fs).trace +
        countRunTool (generate_self_signed_cert env
          (generate_self_signed_cert env fs).fs).trace = 1) := by
  constructor
  · intro env fs hwf hc hk
    obtain ⟨h1, h2⟩ := wf_dirs_of_cert fs hwf hc
    have hdir : ¬(env.mkdirOk = false ∧ CERT_DIR ∉ fs.dirs) := fun h => h.2 h2
    rw [generate_skip env fs hdir hc hk]
    refine ⟨rfl, mkdirP_eq_self fs h1 h2, by simp, fun args => by simp⟩
  · intro env fs hm hp he hnb
    have hdir := mkdirOk_not_dirfail env fs hm
    rw [generate_tool_ok env fs hdir hnb hp he]
    show countRunTool [Effect.mkdirCall CERT_DIR, Effect.msgGenerating,
        Effect.runTool opensslArgs, Effect.msgCertGenerated CERT_FILE,
        Effect.msgKeyGenerated KEY_FILE] +
      countRunTool (generate_self_signed_cert env
        { dirs := (fs.mkdirP CERT_DIR).dirs,
          files := addMissing fs.files [KEY_FILE, CERT_FILE] }).trace = 1
    rw [generate_skip env
      { dirs := (fs.mkdirP CERT_DIR).dirs,
        files := addMissing fs.files [KEY_FILE, CERT_FILE] }
      (mkdirOk_not_dirfail env _ hm)
      (mem_addMissing_right _ _ _ (by simp))
      (mem_addMissing_right _ _ _ (by simp))]
    rfl

/-- Witness for C1: a run on a state holding both artifacts succeeds, and
two successive runs from the empty state execute the tool once. -/
theorem c1_idempotence_witness :
    (generate_self_signed_cert envNoTool fsReady).result = .success ∧
    countRunTool (generate_self_signed_cert envOk fs0).trace +
      countRunTool (generate_self_signed_cert envOk
        (generate_self_signed_cert envOk fs0).fs).trace = 1 :=
  ⟨(c1_idempotence.1 envNoTool fsReady (by decide) (by decide) (by decide)).1,
   c1_idempotence.2 envOk fs0 rfl rfl rfl (by decide)⟩

/-- C2: every external tool execution carries exactly the fixed argument
list, and that list requests an RSA 4096-bit key, 365-day validity, no
passphrase (`-nodes`), subject common name `localhost`, the key and
certificate written to the fixed paths, and exactly the four Subject
Alternative Name entries (DNS `localhost`, DNS `speechos`, DNS `*.local`,
IP `127.0.0.1`). -/
theorem c2_parameter_fidelity :
    (∀ (env : Env) (fs : FS) (args : List String),
      Effect.runTool args ∈ (generate_self_signed_cert env fs).trace →
      args = opensslArgs) ∧
    adjacentIn "-newkey" "rsa:4096" opensslArgs ∧
    adjacentIn "-days" "365" opensslArgs ∧
    "-nodes" ∈ opensslArgs ∧
    adjacentIn "-subj" "/CN=localhost" opensslArgs ∧
    adjacentIn "-keyout" (pathStr KEY_FILE) opensslArgs ∧
    adjacentIn "-out" (pathStr CERT_FILE) opensslArgs ∧
    adjacentIn "-addext" sanExtension opensslArgs ∧
    sanEntries sanExtension =
      ["DNS:localhost", "DNS:speechos", "DNS:*.local", "IP:127.0.0.1"] := by
  refine ⟨?_, by decide, by decide, by decide, by decide, by decide,
    by decide, by decide, by decide⟩
  intro env fs args h
  unfold generate_self_signed_cert at h
  split_ifs at h <;> simp_all

/-- Witness for C2: the run from the empty state in the all-ok
environment executes the tool, and its argument list is the fixed one. -/
theorem c2_parameter_fidelity_witness :
    Effect.runTool opensslArgs ∈ (generate_self_signed_cert envOk fs0).trace ∧
    opensslArgs = opensslArgs :=
  ⟨by decide, c2_parameter_fidelity.1 envOk fs0 opensslArgs (by decide)⟩

/-- C3: when the tool is executed and exits nonzero, the run fails with
`certificateGenerationFailed` carrying that exit code, emits neither
confirmation message, and deletes nothing: every pre-existing file and
every file the failing tool left behind is still present afterwards. -/
theorem c3_failure_propagation (env : Env) (fs : FS)
    (hm : env.mkdirOk = true) (hp : env.opensslOnPath = true)
    (he : env.opensslExit ≠ 0)
    (hnb : ¬(CERT_FILE ∈ fs.files ∧ KEY_FILE ∈ fs.files)) :
    (generate_self_signed_cert env fs).result =
      .failure (.certificateGenerationFailed env.opensslExit) ∧
    (∀ p, Effect.msgCertGenerated p ∉ (generate_self_signed_cert env fs).trace) ∧
    (∀ p, Effect.msgKeyGenerated p ∉ (generate_self_signed_cert env fs).trace) ∧
    (∀ f ∈ fs.files, f ∈ (generate_self_signed_cert env fs).fs.files) ∧
    (∀ f ∈ env.toolLeftoverFiles, f ∈ (generate_self_signed_cert env fs).fs.files) := by
  rw [generate_tool_fail env fs (mkdirOk_not_dirfail env fs hm) hnb hp he]
  refine ⟨rfl, fun p => by simp, fun p => by simp, ?_, ?_⟩
  · intro f hf
    exact mem_addMissing_left _ _ _ hf
  · intro f hf
    exact mem_addMissing_right _ _ _ hf

/-- Witness for C3: with only the key file present and the tool exiting
with status 3, the run fails with that exit code. -/
theorem c3_failure_propagation_witness :
    (generate_self_signed_cert envFail3 fsKeyOnly).result =
      .failure (.certificateGenerationFailed envFail3.opensslExit) :=
  (c3_failure_propagation envFail3 fsKeyOnly rfl rfl (by decide) (by decide)).1

/-- C4: when exactly one of the two artifacts exists (and directory
creation is permitted), the run takes the generation path: it prints the
generating message, never prints the already-exist message, and — when
the tool resolves on the path — executes the external tool. -/
theorem c4_partial_state_regeneration (env : Env) (fs : FS)
    (hm : env.mkdirOk = true)
    (hx : (CERT_FILE ∈ fs.files ∧ KEY_FILE ∉ fs.files) ∨
          (CERT_FILE ∉ fs.files ∧ KEY_FILE ∈ fs.files)) :
    Effect.msgGenerating ∈ (generate_self_signed_cert env fs).trace ∧
    (∀ d, Effect.msgAlreadyExist d ∉ (generate_self_signed_cert env fs).trace) ∧
    (env.opensslOnPath = true →
      Effect.runTool opensslArgs ∈ (generate_self_signed_cert env fs).trace) := by
  have hnb : ¬(CERT_FILE ∈ fs.files ∧ KEY_FILE ∈ fs.files) := by
    rcases hx with ⟨_, hk⟩ | ⟨hc, _⟩
    · exact fun h => hk h.2
    · exact fun h => hc h.1
  have hdir := mkdirOk_not_dirfail env fs hm
  by_cases hp : env.opensslOnPath = true
  · by_cases he : env.opensslExit = 0
    · rw [generate_tool_ok env fs hdir hnb hp he]
      exact ⟨by simp, fun d => by simp, fun _ => by simp⟩
    · rw [generate_tool_fail env fs hdir hnb hp he]
      exact ⟨by simp, fun d => by simp, fun _ => by simp⟩
  · have hp' : env.opensslOnPath = false := by
      cases h : env.opensslOnPath
      · rfl
      · exact absurd h hp
    rw [generate_no_tool env fs hdir hnb hp']
    exact ⟨by simp, fun d => by simp, fun hpt => absurd hpt hp⟩

/-- Witness for C4: from a state holding only the key file, the all-ok
run executes the external tool. -/
theorem c4_partial_state_regeneration_witness :
    Effect.runTool opensslArgs ∈ (generate_self_signed_cert envOk fsKeyOnly).trace :=
  (c4_partial_state_regeneration envOk fsKeyOnly rfl (by decide)).2.2 rfl

/-- C5: whenever directory creation is permitted, after the run the
certificate directory and each of its ancestors exist, from any initial
state; and the creation step never fails when the directory already
exists (`exist_ok=True`), whatever the permission oracle says. -/
theorem c5_directory_creation :
    (∀ (env : Env) (fs : FS), env.mkdirOk = true →
      ∀ p ∈ ancestorChain CERT_DIR, p ∈ (generate_self_signed_cert env fs).fs.dirs) ∧
    (∀ (env : Env) (fs : FS), CERT_DIR ∈ fs.dirs →
      (generate_self_signed_cert env fs).result ≠
        .failure .directoryCreationFailed) := by
  constructor
  · intro env fs hm p hp
    have hdir := mkdirOk_not_dirfail env fs hm
    have hmem : p ∈ (fs.mkdirP CERT_DIR).dirs := mem_addMissing_right _ _ _ hp
    unfold generate_self_signed_cert
    rw [if_neg hdir]
    split_ifs <;> exact hmem
  · intro env fs hd
    have hdir : ¬(env.mkdirOk = false ∧ CERT_DIR ∉ fs.dirs) := fun h => h.2 hd
    unfold generate_self_signed_cert
    rw [if_neg hdir]
    split_ifs <;> simp

/-- Witness for C5: from the empty state the all-ok run creates the
certificate directory, and with creation denied but the directory already
present the run does not fail with a directory-creation error. -/
theorem c5_directory_creation_witness :
    CERT_DIR ∈ (generate_self_signed_cert envOk fs0).fs.dirs ∧
    (generate_self_signed_cert envNoMkdir fsReady).result ≠
      .failure .directoryCreationFailed :=
  ⟨c5_directory_creation.1 envOk fs0 rfl CERT_DIR (by decide),
   c5_directory_creation.2 envNoMkdir fsReady (by decide)⟩

/-- Counterexample for C6 as stated: when the tool exits with status 3,
the process exit status is 1 (the interpreter's uncaught-exception
status), not the tool's own exit code. -/
theorem c6_counterexample :
    (generate_self_signed_cert envFail3 fs0).result =
      .failure (.certificateGenerationFailed 3) ∧
    envFail3.opensslExit = 3 ∧
    script_exit_code envFail3 fs0 = 1 ∧
    script_exit_code envFail3 fs0 ≠ envFail3.opensslExit := by
  decide

/-- C6 (amended): run as a script, the process exits nonzero — always
with status 1, the interpreter's uncaught-exception status, not the
tool's own exit code — when the tool invocation fails; it exits zero on
success and also when both artifacts already exist. -/
theorem c6_exit_behavior (env : Env) (fs : FS) :
    (env.mkdirOk = true → env.opensslOnPath = true →
      ¬(CERT_FILE ∈ fs.files ∧ KEY_FILE ∈ fs.files) → env.opensslExit ≠ 0 →
      script_exit_code env fs = 1) ∧
    (env.mkdirOk = true → env.opensslOnPath = true → env.opensslExit = 0 →
      script_exit_code env fs = 0) ∧
    (fs.wf → CERT_FILE ∈ fs.files → KEY_FILE ∈ fs.files →
      script_exit_code env fs = 0) := by
  refine ⟨?_, ?_, ?_⟩
  · intro hm hp hnb he
    unfold script_exit_code
    rw [generate_tool_fail env fs (mkdirOk_not_dirfail env fs hm) hnb hp he]
  · intro hm hp he
    unfold script_exit_code
    by_cases hb : CERT_FILE ∈ fs.files ∧ KEY_FILE ∈ fs.files
    · rw [generate_skip env fs (mkdirOk_not_dirfail env fs hm) hb.1 hb.2]
    · rw [generate_tool_ok env fs (mkdirOk_not_dirfail env fs hm) hb hp he]
  · intro hwf hc hk
    unfold script_exit_code
    obtain ⟨h1, h2⟩ := wf_dirs_of_cert fs hwf hc
    rw [generate_skip env fs (fun h => h.2 h2) hc hk]

/-- Witness for C6 (amended): the tool failing with status 3 makes the
script exit 1, and an all-ok run exits 0. -/
theorem c6_exit_behavior_witness :
    script_exit_code envFail3 fs0 = 1 ∧ script_exit_code envOk fs0 = 0 :=
  ⟨(c6_exit_behavior envFail3 fs0).1 rfl rfl (by decide) (by decide),
   (c6_exit_behavior envOk fs0).2.1 rfl rfl rfl⟩

/-- C7: when generation is reached and the executable is not resolvable,
the run fails with `externalToolNotFound` — a failure distinct from every
generation failure — and the tool is executed zero times (no retry). -/
theorem c7_tool_not_found (env : Env) (fs : FS)
    (hp : env.opensslOnPath = false)
    (hdir : ¬(env.mkdirOk = false ∧ CERT_DIR ∉ fs.dirs))
    (hnb : ¬(CERT_FILE ∈ fs.files ∧ KEY_FILE ∈ fs.files)) :
    (generate_self_signed_cert env fs).result = .failure .externalToolNotFound ∧
    countRunTool (generate_self_signed_cert env fs).trace = 0 ∧
    ∀ c, (generate_self_signed_cert env fs).result ≠
      .failure (.certificateGenerationFailed c) := by
  rw [generate_no_tool env fs hdir hnb hp]
  exact ⟨rfl, rfl, fun c => by simp⟩

/-- Witness for C7: from the empty state with no resolvable executable,
the run fails with `externalToolNotFound`. -/
theorem c7_tool_not_found_witness :
    (generate_self_signed_cert envNoTool fs0).result =
      .failure .externalToolNotFound :=
  (c7_tool_not_found envNoTool fs0 rfl (by decide) (by decide)).1

/-- C8: in every run the `mkdir` call is the first effect — before the
existence check's message and before any tool execution — and a run that
fails with `directoryCreationFailed` never executes the external
tool. -/
theorem c8_ordering (env : Env) (fs : FS) :
    (generate_self_signed_cert env fs).trace.head? =
      some (Effect.mkdirCall CERT_DIR) ∧
    ((generate_self_signed_cert env fs).result =
        .failure .directoryCreationFailed →
      ∀ args, Effect.runTool args ∉ (generate_self_signed_cert env fs).trace) := by
  unfold generate_self_signed_cert
  split_ifs <;> refine ⟨rfl, ?_⟩ <;> intro hres args <;> simp_all

/-- Witness for C8: a run denied directory creation executes no tool. -/
theorem c8_ordering_witness :
    Effect.runTool opensslArgs ∉
      (generate_self_signed_cert envNoMkdir fs0).trace :=
  (c8_ordering envNoMkdir fs0).2 (by decide) opensslArgs

/-- C9: after a successful all-ok run from a clean state (no files), the
file set is exactly the key file and the certificate file, both directly
inside the certificate directory at the fixed relative paths
`scripts/.certs/key.pem` and `scripts/.certs/cert.pem`, and the only
directories afterwards are the pre-existing ones plus the certificate
directory chain — no location outside it is touched. -/
theorem c9_artifact_naming_frame (env : Env) (fs : FS)
    (hm : env.mkdirOk = true) (hp : env.opensslOnPath = true)
    (he : env.opensslExit = 0) (hclean : fs.files = []) :
    (generate_self_signed_cert env fs).fs.files = [KEY_FILE, CERT_FILE] ∧
    parentOf KEY_FILE = CERT_DIR ∧ parentOf CERT_FILE = CERT_DIR ∧
    KEY_FILE = ["scripts", ".certs", "key.pem"] ∧
    CERT_FILE = ["scripts", ".certs", "cert.pem"] ∧
    (∀ d ∈ (generate_self_signed_cert env fs).fs.dirs,
      d ∈ fs.dirs ∨ d ∈ ancestorChain CERT_DIR) := by
  have hnb : ¬(CERT_FILE ∈ fs.files ∧ KEY_FILE ∈ fs.files) := by
    rw [hclean]
    simp
  rw [generate_tool_ok env fs (mkdirOk_not_dirfail env fs hm) hnb hp he]
  refine ⟨?_, by decide, by decide, by decide, by decide, ?_⟩
  · show addMissing fs.files [KEY_FILE, CERT_FILE] = [KEY_FILE, CERT_FILE]
    rw [hclean]
    decide
  · intro d hd
    exact mem_of_mem_addMissing _ _ _ hd

/-- Witness for C9: the all-ok run from the empty state leaves exactly
the two artifacts. -/
theorem c9_artifact_naming_frame_witness :
    (generate_self_signed_cert envOk fs0).fs.files = [KEY_FILE, CERT_FILE] :=
  (c9_artifact_naming_frame envOk fs0 rfl rfl rfl rfl).1

/-- C10: when both artifacts already exist (in a well-formed state), the
run succeeds even though the executable is not resolvable on the path,
and the tool is executed zero times: the skip branch returns before any
subprocess invocation. -/
theorem c10_skip_independent_of_tool (env : Env) (fs : FS)
    (hwf : fs.wf) (hc : CERT_FILE ∈ fs.files) (hk : KEY_FILE ∈ fs.files)
    (hp : env.opensslOnPath = false) :
    (generate_self_signed_cert env fs).result = .success ∧
    countRunTool (generate_self_signed_cert env fs).trace = 0 := by
  obtain ⟨h1, h2⟩ := wf_dirs_of_cert fs hwf hc
  rw [generate_skip env fs (fun h => h.2 h2) hc hk]
  exact ⟨rfl, rfl⟩

/-- Witness for C10: with both artifacts present and no resolvable
executable, the run succeeds without executing the tool. -/
theorem c10_skip_independent_of_tool_witness :
    (generate_self_signed_cert envNoTool fsReady).result = .success ∧
    countRunTool (generate_self_signed_cert envNoTool fsReady).trace = 0 :=
  c10_skip_independent_of_tool envNoTool fsReady (by decide) (by decide)
    (by decide) rfl

end SpeechOS
